import Mathlib

/-
Verification of the CRAI kiosk photobooth against its design document.

The development shallowly embeds the relevant parts of the source:
  * `src/lib/gemini.ts`        — the Generation Adapter (`generateAIImage`);
  * `src/pages/CameraPage.tsx` — the Capture Engine (target dimensions, the
    crop computation in `capture`, the countdown interval in `startCountdown`,
    and the camera-stream effect with its cleanup);
  * `src/pages/AdminPage.tsx`  — the admin screen (`handleLogin`,
    `handleSaveSettings`, the concept-sync handler);
  * `src/types.ts`             — the data model.

Machine floats of the crop arithmetic are idealised as rationals; the
external service and the remote store are passed in as explicit parameters
so that every path of the adapter and of the admin handlers is a total
function of its inputs.
-/

namespace CRAI

/-! ## Generation Adapter — `src/lib/gemini.ts` -/

/-- Classified failure kinds of the Generation Adapter.  In the source each
is a distinct thrown `Error`: the missing-key message at lines 10–14, the
transport error rethrown by the catch block, and the no-image message at
line 49. -/
inductive GenError
  | missingCredential
  | serviceUnreachable
  | noImageReturned
deriving DecidableEq

/-- `inlineData` field of a response part (`part.inlineData?.data`). -/
structure InlineData where
  data : Option String
deriving DecidableEq

/-- One part of a candidate's `content.parts`. -/
structure RespPart where
  inlineData : Option InlineData
  text : Option String
deriving DecidableEq

/-- One candidate of the service response; `parts` embeds
`candidate.content.parts`. -/
structure Candidate where
  parts : List RespPart
deriving DecidableEq

/-- The service response: an ordered candidate list (`response.candidates`). -/
structure GenResponse where
  candidates : List Candidate
deriving DecidableEq

/-- JS truthiness of `part.inlineData?.data` (gemini.ts line 43): the part
bears an image when `inlineData` is present, carries a `data` field, and that
field is a non-empty string. -/
def partHasImage (p : RespPart) : Bool :=
  match p.inlineData with
  | some d =>
    match d.data with
    | some s => s != ""
    | none => false
  | none => false

/-- The base64 payload of an image-bearing part. -/
def partImageData (p : RespPart) : String :=
  match p.inlineData with
  | some d => d.data.getD ""
  | none => ""

/-- The request sent to the service (gemini.ts lines 18–37): inline image
data, its declared mime type, and the augmented prompt text. -/
structure GenRequest where
  data : String
  mimeType : String
  text : String
deriving DecidableEq

/-- The fixed qualifiers appended to the concept prompt (gemini.ts line 29). -/
def promptSuffix (aspectRatio : String) : String :=
  ". High resolution, " ++ aspectRatio ++
    " aspect ratio, cinematic lighting, photorealistic, maintaining person\x27s facial features and identity. No text, no watermark."

/-- Request construction (gemini.ts lines 20–31): the payload is
`base64Source.split(",")[1]` (the empty string when the split yields no
second chunk, matching `undefined` there), the mime type is the literal
`"image/png"`, and the text is the prompt with the fixed suffix. -/
def buildRequest (base64Source prompt aspectRatio : String) : GenRequest :=
  { data := (base64Source.splitOn ",").getD 1 ""
    mimeType := "image/png"
    text := prompt ++ promptSuffix aspectRatio }

/-- Image extraction from the response (gemini.ts lines 40–49): when the
candidate list is non-empty, scan the parts of `candidates[0]` in order and
return the first image-bearing one as a png data URL; otherwise fail with
the no-image error.  Candidates after the first are never inspected. -/
def extractImage (response : GenResponse) : Except GenError String :=
  match response.candidates with
  | [] => .error .noImageReturned
  | c :: _ =>
    match c.parts.find? partHasImage with
    | some p => .ok ("data:image/png;base64," ++ partImageData p)
    | none => .error .noImageReturned

/-- `generateAIImage` (gemini.ts lines 3–54).  `apiKey` embeds
`import.meta.env.VITE_GEMINI_API_KEY`; `service` is the external call
`ai.models.generateContent`, a function of the request that either fails at
transport level or yields a response.  The second component of the result
records whether the service was invoked, so "raised before any network
call" is expressible. -/
def generateAIImage (apiKey : Option String) (base64Source prompt aspectRatio : String)
    (service : GenRequest → Except Unit GenResponse) :
    Except GenError String × Bool :=
  match apiKey with
  | none => (.error .missingCredential, false)
  | some _ =>
    match service (buildRequest base64Source prompt aspectRatio) with
    | .error _ => (.error .serviceUnreachable, true)
    | .ok response => (extractImage response, true)

/-- Whether the response's first candidate (if any) lacks image data — the
exact condition under which `extractImage` fails. -/
def firstCandidateLacksImage (r : GenResponse) : Bool :=
  match r.candidates with
  | [] => true
  | c :: _ => c.parts.all (fun p => !partHasImage p)

/-! ## Capture Engine — `src/pages/CameraPage.tsx` -/

/-- The `orientation` prop (`'portrait' | 'landscape'`). -/
inductive Orientation
  | portrait
  | landscape
deriving DecidableEq

/-- `targetWidth` (CameraPage.tsx line 19): `isPortrait ? 768 : 1344`.
Rationals stand in for the JS numbers. -/
def targetWidth : Orientation → ℚ
  | .portrait => 768
  | .landscape => 1344

/-- `targetHeight` (CameraPage.tsx line 20): `isPortrait ? 1344 : 768`. -/
def targetHeight : Orientation → ℚ
  | .portrait => 1344
  | .landscape => 768

/-- The source rectangle handed to `drawImage` (CameraPage.tsx lines 56–67). -/
structure CropRegion where
  sourceX : ℚ
  sourceY : ℚ
  sourceWidth : ℚ
  sourceHeight : ℚ
deriving DecidableEq

/-- The crop computation of `capture` (CameraPage.tsx lines 53–67): compare
the feed ratio with the target ratio; when the feed is strictly wider, keep
full height and take a horizontally centred strip of width
`videoHeight * targetRatio`; otherwise keep full width and take a vertically
centred strip of height `videoWidth / targetRatio`. -/
def computeCrop (videoWidth videoHeight tW tH : ℚ) : CropRegion :=
  let videoRatio := videoWidth / videoHeight
  let targetRatio := tW / tH
  if videoRatio > targetRatio then
    { sourceX := (videoWidth - videoHeight * targetRatio) / 2
      sourceY := 0
      sourceWidth := videoHeight * targetRatio
      sourceHeight := videoHeight }
  else
    { sourceX := 0
      sourceY := (videoHeight - videoWidth / targetRatio) / 2
      sourceWidth := videoWidth
      sourceHeight := videoWidth / targetRatio }

/-- The still frame produced by `capture`: the canvas is sized to the target
dimensions (CameraPage.tsx lines 50–51) and the crop region of the live feed
is drawn into it (line 69). -/
structure CapturedFrame where
  width : ℚ
  height : ℚ
  crop : CropRegion
deriving DecidableEq

/-- `capture` (CameraPage.tsx lines 44–76), restricted to its geometry:
given the configured orientation and the live feed's native dimensions, the
produced frame has exactly the target pixel dimensions and carries the
computed crop region. -/
def capture (o : Orientation) (videoWidth videoHeight : ℚ) : CapturedFrame :=
  { width := targetWidth o
    height := targetHeight o
    crop := computeCrop videoWidth videoHeight (targetWidth o) (targetHeight o) }

/-- The data URL produced for the captured frame (CameraPage.tsx line 70):
`canvas.toDataURL("image/jpeg", 0.85)` yields a JPEG data URL whose base64
payload is abstracted as a parameter. -/
def captureDataUrl (jpegPayload : String) : String :=
  "data:image/jpeg;base64," ++ jpegPayload

/-! ### Camera screen lifecycle

`CameraPage` holds a live `MediaStream` and a countdown driven by
`setInterval` (lines 24–42 and 78–90).  The state below records what those
lines maintain:

* `mounted` — whether the component is still mounted (the `videoRef` /
  `canvasRef` guards of `capture` are non-null exactly while mounted);
* `countdown` — the `countdown` React state (`null` or a number);
* `intervalActive` — whether the interval started by `startCountdown` is
  still registered (the source clears it only inside the tick that reaches
  1; no effect cleanup ever clears it);
* `streamLive` — whether the acquired camera stream still has live tracks;
* `cleanupStream` — the `stream` value captured by the effect cleanup
  closure (line 41).  The effect runs in the render where `stream` is still
  `null`, and its dependencies `[targetWidth, targetHeight]` never change
  while mounted, so the registered cleanup permanently closes over `none`;
  `setStream(mediaStream)` (line 34) does not re-run the effect;
* `captureCalls` — how many times `capture()` has been invoked.  Its only
  call site is the `prev === 1` branch of the interval updater, which is
  applied only while the component is mounted (React discards state updates
  dispatched to an unmounted component);
* `framesCaptured` — how many times the `onCapture` frame callback fired
  (line 71).  The ref guards of `capture` (line 45) hold whenever that
  branch runs, so the two counters advance together. -/
structure CamState where
  mounted : Bool
  countdown : Option Nat
  intervalActive : Bool
  streamLive : Bool
  cleanupStream : Option Nat
  captureCalls : Nat
  framesCaptured : Nat
deriving DecidableEq

/-- The camera screen right after mount once `getUserMedia` resolved: the
stream is live, no countdown runs, and the effect cleanup holds the stale
`stream = null` closure value. -/
def initCamState : CamState :=
  { mounted := true
    countdown := none
    intervalActive := false
    streamLive := true
    cleanupStream := none
    captureCalls := 0
    framesCaptured := 0 }

/-- Events the camera screen reacts to: pressing the CAPTURE shutter
(`startCountdown`, line 139), one firing of the countdown interval
(lines 80–89), and pressing BACK, which navigates away and unmounts the
component, running the effect cleanup (line 41). -/
inductive CamEvent
  | pressCapture
  | tick
  | back
deriving DecidableEq

/-- One step of the camera screen.

* `pressCapture`: the shutter is rendered only while no countdown runs
  (line 136) and only while mounted; it sets the countdown to 3 and starts
  the interval (lines 79–80).
* `tick`: one firing of the interval.  Its body calls
  `setCountdown(updater)`; React applies the update only while the
  component is mounted — an update dispatched to an unmounted component is
  dropped, the rendered countdown value stays frozen, and the
  `prev === 1` branch (the only call site of `clearInterval` and
  `capture()`) is never reached.  While mounted, the updater
  (lines 81–88) at `1` clears the interval, invokes `capture()` — whose
  ref guards (line 45) hold, so the frame callback fires — and nulls the
  countdown; at any other number it decrements
  (`prev ? prev - 1 : null`, where a JS `0` is falsy); at `null` it stays
  `null` and never captures.
* `back`: unmounting runs the effect cleanup, which stops the tracks of the
  closed-over `cleanupStream` value — the interval is not cleared. -/
def camStep (s : CamState) : CamEvent → CamState
  | .pressCapture =>
    if s.mounted && s.countdown == none then
      { s with countdown := some 3, intervalActive := true }
    else s
  | .tick =>
    if s.intervalActive then
      if s.mounted then
        match s.countdown with
        | some 1 =>
          { s with intervalActive := false, countdown := none
                   captureCalls := s.captureCalls + 1
                   framesCaptured := s.framesCaptured + 1 }
        | some n => { s with countdown := if n == 0 then none else some (n - 1) }
        | none => s
      else s
    else s
  | .back =>
    if s.mounted then
      match s.cleanupStream with
      | some _ => { s with mounted := false, streamLive := false }
      | none => { s with mounted := false }
    else s

/-- Run the camera screen over a list of events. -/
def camRun (s : CamState) : List CamEvent → CamState
  | [] => s
  | e :: es => camRun (camStep s e) es

/-! ## Data model — `src/types.ts` and the admin screen — `src/pages/AdminPage.tsx` -/

/-- `PhotoboothSettings` (types.ts lines 17–27). -/
structure PhotoboothSettings where
  eventName : String
  eventDescription : String
  folderId : String
  overlayImage : Option String
  backgroundImage : Option String
  autoResetTime : Nat
  adminPin : String
  orientation : Orientation
  activeEventId : Option String
deriving DecidableEq

/-- `Concept` (types.ts lines 1–6). -/
structure Concept where
  id : String
  name : String
  prompt : String
  thumbnail : String
deriving DecidableEq

/-- Modelled from the spec: `DEFAULT_GAS_URL` lives in `src/constants.ts`,
which is not among the provided sources; the spec only says the remote
store's base URL is configurable with a locally cached value.  Its concrete
text is immaterial to every claim below. -/
def DEFAULT_GAS_URL : String := "https://script.google.com/macros/s/default/exec"

/-- The component-local state of `AdminPage` (lines 20–26): the nested
authentication flag, the PIN input, the in-memory edit copies of settings
and concepts, and the Apps Script base URL field. -/
structure AdminState where
  isAuthenticated : Bool
  pin : String
  localSettings : PhotoboothSettings
  localConcepts : List Concept
  gasUrl : String
deriving DecidableEq

/-- The admin screen as freshly mounted on entry into ADMIN (lines 20–33):
unauthenticated, empty PIN, edit copies initialised from the committed
props, and the base URL read from local storage with the constant default. -/
def initAdminState (settings : PhotoboothSettings) (concepts : List Concept)
    (savedUrl : Option String) : AdminState :=
  { isAuthenticated := false
    pin := ""
    localSettings := settings
    localConcepts := concepts
    gasUrl := savedUrl.getD DEFAULT_GAS_URL }

/-- Observable actions of the admin handlers, in the order the code performs
them: the local-storage write (line 45), the two remote store calls
(lines 46 and 223), the parent commits `onSaveSettings` / `onSaveConcepts`
(lines 48 and 224), and `alert`. -/
inductive AdminEffect
  | setLocalStorage : String → String → AdminEffect
  | remoteSaveSettings : PhotoboothSettings → String → AdminEffect
  | remoteSaveConcepts : List Concept → String → AdminEffect
  | commitSettings : PhotoboothSettings → AdminEffect
  | commitConcepts : List Concept → AdminEffect
  | alertMsg : String → AdminEffect
deriving DecidableEq

/-- `handleLogin` (AdminPage.tsx lines 35–42): compare the entered PIN with
the committed `settings.adminPin`; on a match set the authenticated flag,
otherwise alert and clear the PIN field. -/
def handleLogin (settings : PhotoboothSettings) (s : AdminState) :
    AdminState × List AdminEffect :=
  if s.pin == settings.adminPin then
    ({ s with isAuthenticated := true }, [])
  else
    ({ s with pin := "" }, [.alertMsg "INVALID SECURITY PIN"])

/-- `handleSaveSettings` (AdminPage.tsx lines 44–51).  `ok` is the resolved
result of the awaited `saveSettingsToGas` remote call: the local-storage
write of the base URL happens unconditionally first, then the remote save;
only on `ok` do the parent commit and the success alert follow.  The
component state is not modified on either path. -/
def handleSaveSettings (settings : PhotoboothSettings) (ok : Bool) (s : AdminState) :
    AdminState × List AdminEffect :=
  (s,
    [.setLocalStorage "APPS_SCRIPT_BASE_URL" s.gasUrl,
     .remoteSaveSettings s.localSettings settings.adminPin]
    ++ (if ok then
          [.commitSettings s.localSettings,
           .alertMsg "Settings saved and synced to cloud"]
        else []))

/-- The SYNC ALL CONCEPTS click handler (AdminPage.tsx lines 222–225):
remote-save the edited concepts, and only on `ok` commit them to the parent
and alert.  The component state is not modified on either path. -/
def handleSyncConcepts (settings : PhotoboothSettings) (ok : Bool) (s : AdminState) :
    AdminState × List AdminEffect :=
  (s,
    [.remoteSaveConcepts s.localConcepts settings.adminPin]
    ++ (if ok then
          [.commitConcepts s.localConcepts,
           .alertMsg "Concepts updated on cloud"]
        else []))

/-! ## Theorems -/

/-! ### Camera lifecycle invariants (helpers) -/

/-- No event ever changes the value the effect cleanup closed over. -/
theorem camStep_cleanup_const (s : CamState) (e : CamEvent) :
    (camStep s e).cleanupStream = s.cleanupStream := by
  cases e with
  | pressCapture =>
    cases hm : s.mounted && s.countdown == none <;> simp [camStep, hm]
  | tick =>
    cases hi : s.intervalActive
    · simp [camStep, hi]
    · cases hm : s.mounted
      · simp [camStep, hi, hm]
      · cases hc : s.countdown with
        | none => simp [camStep, hi, hm, hc]
        | some n =>
          cases n with
          | zero => simp [camStep, hi, hm, hc]
          | succ m =>
            cases m with
            | zero => simp [camStep, hi, hm, hc]
            | succ k => simp [camStep, hi, hm, hc]
  | back =>
    cases hm : s.mounted
    · simp [camStep, hm]
    · cases hc : s.cleanupStream <;> simp [camStep, hm, hc]

/-- `camStep_cleanup_const`, lifted to event sequences. -/
theorem camRun_cleanup_const (es : List CamEvent) (s : CamState) :
    (camRun s es).cleanupStream = s.cleanupStream := by
  induction es generalizing s with
  | nil => rfl
  | cons e es ih => rw [camRun, ih (camStep s e), camStep_cleanup_const]

/-- Once the camera screen is unmounted, every event is a no-op: the
shutter is gone, a tick's state update is dropped by React, and a second
back finds nothing to unmount. -/
theorem camStep_unmounted_id (s : CamState) (e : CamEvent) (h : s.mounted = false) :
    camStep s e = s := by
  cases e with
  | pressCapture => simp [camStep, h]
  | tick =>
    cases hi : s.intervalActive
    · simp [camStep, hi]
    · simp [camStep, hi, h]
  | back => simp [camStep, h]

/-- `camStep_unmounted_id`, lifted to event sequences. -/
theorem camRun_unmounted_id (es : List CamEvent) (s : CamState) (h : s.mounted = false) :
    camRun s es = s := by
  induction es generalizing s with
  | nil => rfl
  | cons e es ih => rw [camRun, camStep_unmounted_id s e h, ih s h]

/-- Navigating back always leaves the component unmounted. -/
theorem camStep_back_mounted (s : CamState) : (camStep s .back).mounted = false := by
  cases hm : s.mounted
  · simp [camStep, hm]
  · cases hc : s.cleanupStream <;> simp [camStep, hm, hc]

/-- Navigating back invokes no capture and fires no frame callback. -/
theorem camStep_back_counts (s : CamState) :
    (camStep s .back).captureCalls = s.captureCalls
    ∧ (camStep s .back).framesCaptured = s.framesCaptured := by
  cases hm : s.mounted
  · simp [camStep, hm]
  · cases hc : s.cleanupStream <;> simp [camStep, hm, hc]

/-- While the cleanup closure holds no stream, no event stops a live
stream: the tracks that get stopped are those of the closed-over value. -/
theorem camStep_stream_const (s : CamState) (e : CamEvent) (hc : s.cleanupStream = none) :
    (camStep s e).streamLive = s.streamLive := by
  cases e with
  | pressCapture =>
    cases hm : s.mounted && s.countdown == none <;> simp [camStep, hm]
  | tick =>
    cases hi : s.intervalActive
    · simp [camStep, hi]
    · cases hm : s.mounted
      · simp [camStep, hi, hm]
      · cases hcd : s.countdown with
        | none => simp [camStep, hi, hm, hcd]
        | some n =>
          cases n with
          | zero => simp [camStep, hi, hm, hcd]
          | succ m =>
            cases m with
            | zero => simp [camStep, hi, hm, hcd]
            | succ k => simp [camStep, hi, hm, hcd]
  | back =>
    cases hm : s.mounted <;> simp [camStep, hm, hc]

/-- Lifted to sequences: starting from a state whose cleanup closure holds
no stream, the stream-liveness flag never changes. -/
theorem camRun_stream_const (es : List CamEvent) (s : CamState) (hc : s.cleanupStream = none) :
    (camRun s es).streamLive = s.streamLive := by
  induction es generalizing s with
  | nil => rfl
  | cons e es ih =>
    have h1 := camStep_stream_const s e hc
    have h2 : (camStep s e).cleanupStream = none := by rw [camStep_cleanup_const, hc]
    rw [camRun, ih (camStep s e) h2, h1]

/-! ### C3 — target aspect ratio -/

/-- C3 counterexample: the still frame's target ratio is not 9:16 in
portrait (and not 16:9 in landscape).  The capture targets are 768×1344 and
1344×768 (CameraPage.tsx lines 18–20), and 768/1344 = 4/7 ≠ 9/16. -/
theorem target_ratio_counterexample :
    ¬ (targetWidth Orientation.portrait / targetHeight Orientation.portrait = 9 / 16
       ∧ targetWidth Orientation.landscape / targetHeight Orientation.landscape = 16 / 9) := by
  norm_num [targetWidth, targetHeight]

/-- C3 (amended): the capture targets are 768×1344 in portrait and 1344×768
in landscape, so the target aspect ratio `targetWidth/targetHeight` is
exactly 4/7 (portrait) and 7/4 (landscape) — near, but not equal to, 9/16
and 16/9. -/
theorem target_dimensions_thm :
    targetWidth Orientation.portrait = 768
    ∧ targetHeight Orientation.portrait = 1344
    ∧ targetWidth Orientation.landscape = 1344
    ∧ targetHeight Orientation.landscape = 768
    ∧ targetWidth Orientation.portrait / targetHeight Orientation.portrait = 4 / 7
    ∧ targetWidth Orientation.landscape / targetHeight Orientation.landscape = 7 / 4 := by
  norm_num [targetWidth, targetHeight]

/-! ### C4 — countdown cancellation -/

/-- C4: the countdown is cancellable at every tick before it completes —
the BACK navigation, the screen's only cancellation control, stays
rendered throughout the countdown — and a cancellation leaves the camera
feed running and produces no captured frame.  After the unmount, React
drops the interval's state updates, so the `prev === 1` branch is never
reached: `capture()` is not invoked (neither by the cancellation itself
nor by any later tick) and no frame callback fires, while the stream stays
live.  Quantifying over the events before the cancellation (`pre`) covers
cancelling at any tick; quantifying over the events after it (`post`)
covers the interval that keeps firing because unmounting never clears
it. -/
theorem countdown_cancel_thm (pre post : List CamEvent) (u : CamState)
    (hu : u = camStep (camRun initCamState pre) CamEvent.back) :
    (camRun u post).mounted = false
    ∧ (camRun u post).captureCalls = (camRun initCamState pre).captureCalls
    ∧ (camRun u post).framesCaptured = (camRun initCamState pre).framesCaptured
    ∧ (camRun u post).streamLive = true := by
  have hm : u.mounted = false := by rw [hu]; exact camStep_back_mounted _
  have hid : camRun u post = u := camRun_unmounted_id post u hm
  have hc : (camRun initCamState pre).cleanupStream = none := by
    rw [camRun_cleanup_const]; rfl
  have hs : (camRun initCamState pre).streamLive = true := by
    rw [camRun_stream_const pre initCamState rfl]; rfl
  obtain ⟨hb1, hb2⟩ := camStep_back_counts (camRun initCamState pre)
  refine ⟨by rw [hid]; exact hm, ?_, ?_, ?_⟩
  · rw [hid, hu, hb1]
  · rw [hid, hu, hb2]
  · rw [hid, hu, camStep_stream_const _ _ hc, hs]

/-- Closed instance of `countdown_cancel_thm`: back is pressed two ticks
into a countdown; the interval keeps firing but no capture ever occurs and
the feed stays live. -/
theorem countdown_cancel_witness :
    (camRun (camStep (camRun initCamState [CamEvent.pressCapture, CamEvent.tick])
        CamEvent.back) [CamEvent.tick, CamEvent.tick]).mounted = false
    ∧ (camRun (camStep (camRun initCamState [CamEvent.pressCapture, CamEvent.tick])
        CamEvent.back) [CamEvent.tick, CamEvent.tick]).captureCalls
        = (camRun initCamState [CamEvent.pressCapture, CamEvent.tick]).captureCalls
    ∧ (camRun (camStep (camRun initCamState [CamEvent.pressCapture, CamEvent.tick])
        CamEvent.back) [CamEvent.tick, CamEvent.tick]).framesCaptured
        = (camRun initCamState [CamEvent.pressCapture, CamEvent.tick]).framesCaptured
    ∧ (camRun (camStep (camRun initCamState [CamEvent.pressCapture, CamEvent.tick])
        CamEvent.back) [CamEvent.tick, CamEvent.tick]).streamLive = true :=
  countdown_cancel_thm [CamEvent.pressCapture, CamEvent.tick]
    [CamEvent.tick, CamEvent.tick] _ rfl

/-! ### C6 — camera feed release -/

/-- C6: the camera feed acquired by the CAMERA screen is never released.
The effect cleanup (CameraPage.tsx line 41) stops the tracks of the
`stream` state value captured when the effect ran — at that render `stream`
was still `null`, and the effect (deps `[targetWidth, targetHeight]`) never
re-runs, so the cleanup stops nothing.  Concretely: after BACK the screen
is unmounted yet the stream is still live, and no event sequence whatsoever
ever makes `streamLive` false. -/
theorem camera_release_code_bug :
    (camStep initCamState CamEvent.back).mounted = false
    ∧ (camStep initCamState CamEvent.back).streamLive = true
    ∧ ∀ es : List CamEvent, (camRun initCamState es).streamLive = true := by
  refine ⟨by decide, by decide, ?_⟩
  intro es
  rw [camRun_stream_const es initCamState rfl]; rfl

/-! ### Generation Adapter examples and helpers -/

/-- A text-only response part. -/
def txtPart : RespPart := { inlineData := none, text := some "a text answer" }

/-- An image-bearing response part with payload `"QUJD"`. -/
def imgPart : RespPart := { inlineData := some { data := some "QUJD" }, text := none }

/-- A second image-bearing response part with payload `"WFla"`. -/
def imgPart2 : RespPart := { inlineData := some { data := some "WFla" }, text := none }

/-- `extractImage` fails with the no-image kind exactly when the response
has no candidates or its first candidate has no image-bearing part. -/
theorem extractImage_noImage_iff (r : GenResponse) :
    extractImage r = Except.error GenError.noImageReturned
      ↔ firstCandidateLacksImage r = true := by
  rcases r with ⟨cands⟩
  cases cands with
  | nil => simp [extractImage, firstCandidateLacksImage]
  | cons c cs =>
    cases hf : c.parts.find? partHasImage with
    | none =>
      simp only [extractImage, firstCandidateLacksImage, hf]
      constructor
      · intro _
        rw [List.all_eq_true]
        intro x hx
        have := List.find?_eq_none.mp hf x hx
        simp [this]
      · intro _; trivial
    | some p =>
      simp only [extractImage, firstCandidateLacksImage, hf]
      constructor
      · intro hcon; exact absurd hcon (by simp)
      · intro hall
        have hp := List.find?_some hf
        have hmem := List.mem_of_find?_eq_some hf
        have := List.all_eq_true.mp hall p hmem
        rw [hp] at this
        simp at this

/-! ### C1 — first image-bearing candidate -/

/-- C1 counterexample: a response whose first candidate is text-only and
whose second candidate bears an image.  The claim says the second
candidate's image is returned; the adapter instead fails with the no-image
error, because it only ever inspects `candidates[0]` (gemini.ts line 42). -/
theorem first_image_candidate_counterexample :
    (generateAIImage (some "key") "data:image/jpeg;base64,AAAA" "neon city" "9:16"
        (fun _ => Except.ok ⟨[⟨[txtPart]⟩, ⟨[imgPart]⟩]⟩)).1
      = Except.error GenError.noImageReturned
    ∧ ((GenResponse.mk [⟨[txtPart]⟩, ⟨[imgPart]⟩]).candidates.any
        (fun c => c.parts.any partHasImage)) = true :=
  ⟨rfl, rfl⟩

/-- C1 (amended): `generateAIImage` inspects only the first candidate of
the response: dropping or changing every later candidate does not change
the result.  Within that first candidate it returns the first image-bearing
part (skipping text-only parts); when the first candidate has no
image-bearing part it fails with the no-image error even if a later
candidate bears one. -/
theorem first_image_candidate_thm (k src pr ar : String) (c : Candidate)
    (rest rest2 : List Candidate) :
    (generateAIImage (some k) src pr ar (fun _ => Except.ok ⟨c :: rest⟩)).1
      = (generateAIImage (some k) src pr ar (fun _ => Except.ok ⟨c :: rest2⟩)).1
    ∧ ((∃ p ∈ c.parts, partHasImage p = true) →
        ∃ p, c.parts.find? partHasImage = some p
          ∧ (generateAIImage (some k) src pr ar (fun _ => Except.ok ⟨c :: rest⟩)).1
              = Except.ok ("data:image/png;base64," ++ partImageData p))
    ∧ ((∀ p ∈ c.parts, partHasImage p = false) →
        (generateAIImage (some k) src pr ar (fun _ => Except.ok ⟨c :: rest⟩)).1
          = Except.error GenError.noImageReturned) := by
  have hgen : ∀ (r : GenResponse),
      (generateAIImage (some k) src pr ar (fun _ => Except.ok r)).1 = extractImage r :=
    fun r => rfl
  refine ⟨by rw [hgen, hgen]; cases hf : c.parts.find? partHasImage <;>
    simp [extractImage, hf], ?_, ?_⟩
  · rintro ⟨p0, hp0mem, hp0⟩
    have hsome : (c.parts.find? partHasImage).isSome :=
      List.find?_isSome.mpr ⟨p0, hp0mem, hp0⟩
    obtain ⟨p, hp⟩ := Option.isSome_iff_exists.mp hsome
    exact ⟨p, hp, by rw [hgen]; simp [extractImage, hp]⟩
  · intro hall
    have hnone : c.parts.find? partHasImage = none :=
      List.find?_eq_none.mpr (fun x hx => by simp [hall x hx])
    rw [hgen]
    simp [extractImage, hnone]

/-- Closed instance of `first_image_candidate_thm`: in a single-candidate
response whose parts are a text part followed by an image part, the image
part's payload is returned. -/
theorem first_image_candidate_witness :
    ∃ p, (Candidate.mk [txtPart, imgPart]).parts.find? partHasImage = some p
      ∧ (generateAIImage (some "k") "src" "pr" "9:16"
          (fun _ => Except.ok ⟨[Candidate.mk [txtPart, imgPart]]⟩)).1
          = Except.ok ("data:image/png;base64," ++ partImageData p) :=
  (first_image_candidate_thm "k" "src" "pr" "9:16"
      (Candidate.mk [txtPart, imgPart]) [] []).2.1
    ⟨imgPart, by decide, by decide⟩

/-! ### C5 — error classification -/

/-- C5 counterexample: the claim ties the no-image error to "the service
response contains no image-bearing candidate", but the adapter raises it
whenever the FIRST candidate lacks image data — here the second candidate
bears an image and the call still fails with the no-image kind. -/
theorem gen_error_exactness_counterexample :
    (generateAIImage (some "apikey") "data:image/jpeg;base64,BBBB" "style" "16:9"
        (fun _ => Except.ok ⟨[⟨[txtPart]⟩, ⟨[imgPart2]⟩]⟩)).1
      = Except.error GenError.noImageReturned
    ∧ ((GenResponse.mk [⟨[txtPart]⟩, ⟨[imgPart2]⟩]).candidates.any
        (fun c => c.parts.any partHasImage)) = true :=
  ⟨rfl, rfl⟩

/-- C5 (amended): the three failure kinds are pairwise distinct; the
missing-credential error is raised, with no service call made, exactly when
the credential is absent; transport failure yields exactly the
service-unreachable kind; and on a successful service response the
no-image error is raised exactly when the response has no candidates or its
first candidate carries no image-bearing part (later candidates are not
inspected). -/
theorem gen_error_kinds_thm (k src pr ar : String)
    (svc : GenRequest → Except Unit GenResponse) :
    generateAIImage none src pr ar svc = (Except.error GenError.missingCredential, false)
    ∧ (generateAIImage (some k) src pr ar svc).1 ≠ Except.error GenError.missingCredential
    ∧ (generateAIImage (some k) src pr ar svc).2 = true
    ∧ (∀ r, svc (buildRequest src pr ar) = Except.ok r →
        ((generateAIImage (some k) src pr ar svc).1 = Except.error GenError.noImageReturned
          ↔ firstCandidateLacksImage r = true))
    ∧ (∀ e, svc (buildRequest src pr ar) = Except.error e →
        (generateAIImage (some k) src pr ar svc).1 = Except.error GenError.serviceUnreachable)
    ∧ GenError.missingCredential ≠ GenError.noImageReturned
    ∧ GenError.missingCredential ≠ GenError.serviceUnreachable
    ∧ GenError.noImageReturned ≠ GenError.serviceUnreachable := by
  refine ⟨rfl, ?_, ?_, ?_, ?_, by decide, by decide, by decide⟩
  · cases hsvc : svc (buildRequest src pr ar) with
    | error e => simp [generateAIImage, hsvc]
    | ok r =>
      simp only [generateAIImage, hsvc]
      rcases r with ⟨cands⟩
      cases cands with
      | nil => simp [extractImage]
      | cons c cs =>
        cases hf : c.parts.find? partHasImage with
        | none => simp [extractImage, hf]
        | some p => simp [extractImage, hf]
  · cases hsvc : svc (buildRequest src pr ar) with
    | error e => simp [generateAIImage, hsvc]
    | ok r => simp [generateAIImage, hsvc]
  · intro r hr
    simp only [generateAIImage, hr]
    exact extractImage_noImage_iff r
  · intro e he
    simp [generateAIImage, he]

/-- Closed instance of `gen_error_kinds_thm`: with the credential absent the
call fails before contacting the service, and on an empty candidate list
the no-image condition is equivalent to the returned error. -/
theorem gen_error_kinds_witness :
    generateAIImage none "frame" "pr" "9:16" (fun _ => Except.ok (GenResponse.mk []))
      = (Except.error GenError.missingCredential, false)
    ∧ ((generateAIImage (some "k") "frame" "pr" "9:16"
          (fun _ => Except.ok (GenResponse.mk []))).1
        = Except.error GenError.noImageReturned
        ↔ firstCandidateLacksImage (GenResponse.mk []) = true) :=
  ⟨(gen_error_kinds_thm "k" "frame" "pr" "9:16" (fun _ => Except.ok (GenResponse.mk []))).1,
   (gen_error_kinds_thm "k" "frame" "pr" "9:16"
      (fun _ => Except.ok (GenResponse.mk []))).2.2.2.1 (GenResponse.mk []) rfl⟩

/-! ### C9 — mime types -/

/-- C9: the adapter always declares the transmitted frame with mime type
`"image/png"` (gemini.ts line 25) and every success value is prefixed
`"data:image/png;base64,"` (line 44), regardless of the input frame's
encoding — even though the capture path encodes frames as JPEG data URLs
(CameraPage.tsx line 70). -/
theorem png_mime_thm (jpegPayload src pr ar k : String)
    (svc : GenRequest → Except Unit GenResponse) :
    captureDataUrl jpegPayload = "data:image/jpeg;base64," ++ jpegPayload
    ∧ (buildRequest src pr ar).mimeType = "image/png"
    ∧ (buildRequest (captureDataUrl jpegPayload) pr ar).mimeType = "image/png"
    ∧ (∀ img, (generateAIImage (some k) src pr ar svc).1 = Except.ok img →
        ∃ b64, img = "data:image/png;base64," ++ b64) := by
  refine ⟨rfl, rfl, rfl, ?_⟩
  intro img himg
  simp only [generateAIImage] at himg
  cases hsvc : svc (buildRequest src pr ar) with
  | error e => rw [hsvc] at himg; simp at himg
  | ok r =>
    rw [hsvc] at himg
    simp only at himg
    rcases r with ⟨cands⟩
    cases cands with
    | nil => simp [extractImage] at himg
    | cons c cs =>
      cases hf : c.parts.find? partHasImage with
      | none => simp [extractImage, hf] at himg
      | some p =>
        simp only [extractImage, hf] at himg
        exact ⟨partImageData p, by
          cases himg
          rfl⟩

/-- Closed instance of `png_mime_thm`: a JPEG-encoded capture is accepted
and the success value carries the png data-URL prefix. -/
theorem png_mime_witness :
    ∃ b64, "data:image/png;base64,QUJD" = "data:image/png;base64," ++ b64 :=
  (png_mime_thm "cGF5bG9hZA" "data:image/jpeg;base64,cGF5bG9hZA" "pr" "9:16" "k"
      (fun _ => Except.ok ⟨[Candidate.mk [imgPart]]⟩)).2.2.2
    "data:image/png;base64,QUJD" rfl

/-! ### C2 — crop geometry -/

/-- The target ratio is positive for both orientations. -/
theorem targetRatio_pos (o : Orientation) : 0 < targetWidth o / targetHeight o := by
  cases o <;> norm_num [targetWidth, targetHeight]

/-- C2: for every live feed of positive native dimensions, the captured
frame's pixel dimensions equal the target dimensions exactly; the crop
region has exactly the target ratio, lies inside the feed, and is centred
(`sourceX`/`sourceY` split the slack evenly); when the feed is strictly
wider than the target the full height is kept and the strip is
width-centred, otherwise the full width is kept and the strip is
height-centred. -/
theorem capture_matches_target_thm (o : Orientation) (w h : ℚ)
    (hw : 0 < w) (hh : 0 < h) :
    (capture o w h).width = targetWidth o
    ∧ (capture o w h).height = targetHeight o
    ∧ (capture o w h).crop.sourceWidth / (capture o w h).crop.sourceHeight
        = targetWidth o / targetHeight o
    ∧ (capture o w h).crop.sourceX = (w - (capture o w h).crop.sourceWidth) / 2
    ∧ (capture o w h).crop.sourceY = (h - (capture o w h).crop.sourceHeight) / 2
    ∧ 0 < (capture o w h).crop.sourceWidth
    ∧ (capture o w h).crop.sourceWidth ≤ w
    ∧ 0 < (capture o w h).crop.sourceHeight
    ∧ (capture o w h).crop.sourceHeight ≤ h
    ∧ (w / h > targetWidth o / targetHeight o →
        (capture o w h).crop.sourceHeight = h ∧ (capture o w h).crop.sourceY = 0)
    ∧ (¬ w / h > targetWidth o / targetHeight o →
        (capture o w h).crop.sourceWidth = w ∧ (capture o w h).crop.sourceX = 0) := by
  have ht : 0 < targetWidth o / targetHeight o := targetRatio_pos o
  have hite : (capture o w h).crop
      = (if w / h > targetWidth o / targetHeight o then
          ({ sourceX := (w - h * (targetWidth o / targetHeight o)) / 2
             sourceY := 0
             sourceWidth := h * (targetWidth o / targetHeight o)
             sourceHeight := h } : CropRegion)
         else
          { sourceX := 0
            sourceY := (h - w / (targetWidth o / targetHeight o)) / 2
            sourceWidth := w
            sourceHeight := w / (targetWidth o / targetHeight o) }) := rfl
  by_cases hcase : w / h > targetWidth o / targetHeight o
  · rw [hite, if_pos hcase]
    have hwide : targetWidth o / targetHeight o * h < w := (lt_div_iff₀ hh).mp hcase
    refine ⟨rfl, rfl, ?_, rfl, by simp, ?_, ?_, hh, le_refl h,
        fun _ => ⟨rfl, rfl⟩, fun hcon => absurd hcase hcon⟩
    · exact mul_comm h (targetWidth o / targetHeight o) ▸
        mul_div_cancel_right₀ (targetWidth o / targetHeight o) hh.ne'
    · exact mul_pos hh ht
    · rw [mul_comm]; exact le_of_lt hwide
  · rw [hite, if_neg hcase]
    have hnarrow : w / h ≤ targetWidth o / targetHeight o := not_lt.mp hcase
    have hwle : w ≤ targetWidth o / targetHeight o * h := (div_le_iff₀ hh).mp hnarrow
    refine ⟨rfl, rfl, ?_, by simp, rfl, hw, le_refl w, ?_, ?_,
        fun hcon => absurd hcon hcase, fun _ => ⟨rfl, rfl⟩⟩
    · rw [div_div_eq_mul_div, mul_comm, mul_div_cancel_right₀ _ hw.ne']
    · exact div_pos hw ht
    · rw [div_le_iff₀ ht, mul_comm]; exact hwle

/-- Closed instance of `capture_matches_target_thm` at a 16:9 feed
(1920×1080) in portrait orientation. -/
theorem capture_matches_target_witness :
    (0 : ℚ) < 1920 ∧ (0 : ℚ) < 1080
    ∧ ((capture Orientation.portrait 1920 1080).width = targetWidth Orientation.portrait
      ∧ (capture Orientation.portrait 1920 1080).height = targetHeight Orientation.portrait
      ∧ (capture Orientation.portrait 1920 1080).crop.sourceWidth
          / (capture Orientation.portrait 1920 1080).crop.sourceHeight
          = targetWidth Orientation.portrait / targetHeight Orientation.portrait
      ∧ (capture Orientation.portrait 1920 1080).crop.sourceX
          = (1920 - (capture Orientation.portrait 1920 1080).crop.sourceWidth) / 2
      ∧ (capture Orientation.portrait 1920 1080).crop.sourceY
          = (1080 - (capture Orientation.portrait 1920 1080).crop.sourceHeight) / 2
      ∧ 0 < (capture Orientation.portrait 1920 1080).crop.sourceWidth
      ∧ (capture Orientation.portrait 1920 1080).crop.sourceWidth ≤ 1920
      ∧ 0 < (capture Orientation.portrait 1920 1080).crop.sourceHeight
      ∧ (capture Orientation.portrait 1920 1080).crop.sourceHeight ≤ 1080
      ∧ ((1920 : ℚ) / 1080 > targetWidth Orientation.portrait / targetHeight Orientation.portrait →
          (capture Orientation.portrait 1920 1080).crop.sourceHeight = 1080
          ∧ (capture Orientation.portrait 1920 1080).crop.sourceY = 0)
      ∧ (¬ (1920 : ℚ) / 1080 > targetWidth Orientation.portrait / targetHeight Orientation.portrait →
          (capture Orientation.portrait 1920 1080).crop.sourceWidth = 1920
          ∧ (capture Orientation.portrait 1920 1080).crop.sourceX = 0)) :=
  ⟨by norm_num, by norm_num,
   capture_matches_target_thm Orientation.portrait 1920 1080 (by norm_num) (by norm_num)⟩

/-! ### Admin examples -/

/-- A concrete settings record; the PIN matches the spec's scenario. -/
def exSettings : PhotoboothSettings :=
  { eventName := "CORO AI PHOTOBOOTH"
    eventDescription := "Transform Your Reality"
    folderId := "folder-1"
    overlayImage := none
    backgroundImage := none
    autoResetTime := 60
    adminPin := "1234"
    orientation := .portrait
    activeEventId := none }

/-- A freshly entered admin screen in which the PIN field holds `"0000"`. -/
def exAdminEntry : AdminState :=
  { initAdminState exSettings [] none with pin := "0000" }

/-! ### C7 — admin authentication -/

/-- C7: a login attempt from the unauthenticated state authenticates
exactly when the entered PIN equals the committed `adminPin`; a failed
attempt stays unauthenticated, leaves the in-memory edits untouched and
emits nothing but the failure alert (in particular no settings mutation);
and a fresh entry into ADMIN always starts unauthenticated. -/
theorem admin_login_thm (settings : PhotoboothSettings) (concepts : List Concept)
    (savedUrl : Option String) (s : AdminState) (h : s.isAuthenticated = false) :
    ((handleLogin settings s).1.isAuthenticated = true ↔ s.pin = settings.adminPin)
    ∧ (s.pin ≠ settings.adminPin →
        (handleLogin settings s).1.isAuthenticated = false
        ∧ (handleLogin settings s).1.localSettings = s.localSettings
        ∧ (handleLogin settings s).1.localConcepts = s.localConcepts
        ∧ ∀ e ∈ (handleLogin settings s).2, e = AdminEffect.alertMsg "INVALID SECURITY PIN")
    ∧ (initAdminState settings concepts savedUrl).isAuthenticated = false := by
  by_cases hp : s.pin = settings.adminPin
  · simp [handleLogin, hp, initAdminState]
  · simp [handleLogin, hp, initAdminState, h]

/-- Closed instance of `admin_login_thm`, the spec's scenario: PIN `"0000"`
entered against configured `adminPin` `"1234"`. -/
theorem admin_login_witness :
    exAdminEntry.isAuthenticated = false
    ∧ (((handleLogin exSettings exAdminEntry).1.isAuthenticated = true
          ↔ exAdminEntry.pin = exSettings.adminPin)
      ∧ (exAdminEntry.pin ≠ exSettings.adminPin →
          (handleLogin exSettings exAdminEntry).1.isAuthenticated = false
          ∧ (handleLogin exSettings exAdminEntry).1.localSettings = exAdminEntry.localSettings
          ∧ (handleLogin exSettings exAdminEntry).1.localConcepts = exAdminEntry.localConcepts
          ∧ ∀ e ∈ (handleLogin exSettings exAdminEntry).2,
              e = AdminEffect.alertMsg "INVALID SECURITY PIN")
      ∧ (initAdminState exSettings [] none).isAuthenticated = false) :=
  ⟨rfl, admin_login_thm exSettings [] none exAdminEntry rfl⟩

/-! ### C8 — failed remote saves -/

/-- C8: when the remote save of settings or of concepts reports failure,
the admin screen's in-memory edits are left exactly as they were, and no
commit of settings or concepts to the application occurs. -/
theorem admin_save_failure_thm (settings : PhotoboothSettings) (s : AdminState) :
    (handleSaveSettings settings false s).1 = s
    ∧ (∀ st, AdminEffect.commitSettings st ∉ (handleSaveSettings settings false s).2)
    ∧ (handleSyncConcepts settings false s).1 = s
    ∧ (∀ cs, AdminEffect.commitConcepts cs ∉ (handleSyncConcepts settings false s).2) := by
  refine ⟨rfl, ?_, rfl, ?_⟩
  · intro st
    simp [handleSaveSettings]
  · intro cs
    simp [handleSyncConcepts]

/-- Closed instance of `admin_save_failure_thm` at the concrete admin
state. -/
theorem admin_save_failure_witness :
    (handleSaveSettings exSettings false exAdminEntry).1 = exAdminEntry
    ∧ (∀ st, AdminEffect.commitSettings st ∉ (handleSaveSettings exSettings false exAdminEntry).2)
    ∧ (handleSyncConcepts exSettings false exAdminEntry).1 = exAdminEntry
    ∧ (∀ cs, AdminEffect.commitConcepts cs ∉ (handleSyncConcepts exSettings false exAdminEntry).2) :=
  admin_save_failure_thm exSettings exAdminEntry

/-! ### C10 — base URL cached before the remote save -/

/-- C10: whatever the remote save's outcome, the first two actions of
`handleSaveSettings` are, in order, the local-storage write of the current
base URL and the remote save — so the locally cached base URL is updated
even when the remote settings save subsequently fails. -/
theorem gasUrl_cached_first_thm (settings : PhotoboothSettings) (ok : Bool) (s : AdminState) :
    (handleSaveSettings settings ok s).2.take 2
      = [AdminEffect.setLocalStorage "APPS_SCRIPT_BASE_URL" s.gasUrl,
         AdminEffect.remoteSaveSettings s.localSettings settings.adminPin] := by
  cases ok <;> rfl

/-- Closed instance of `gasUrl_cached_first_thm` on a failing remote save. -/
theorem gasUrl_cached_first_witness :
    (handleSaveSettings exSettings false exAdminEntry).2.take 2
      = [AdminEffect.setLocalStorage "APPS_SCRIPT_BASE_URL" exAdminEntry.gasUrl,
         AdminEffect.remoteSaveSettings exAdminEntry.localSettings exSettings.adminPin] :=
  gasUrl_cached_first_thm exSettings false exAdminEntry

end CRAI
